import Mathlib

/-!
Verification of the AKS best-practice assessment engine
(`backend/app/services/assessment_engine.py`, with the catalog helpers in
`backend/app/services/recommendations.py`).

The engine works on JSON-shaped data (Python dicts/lists/scalars loaded
from `recommendations.json` and from the Azure client).  We embed that
data as the inductive `Json` below.  Python strings are embedded as Lean
`String`s; the handful of Python string operations the engine uses
(`split`, `replace`, `strip`, `lower`, `startswith`, `endswith`, `in`,
`int(...)`) are re-implemented over the character list so that every
definition is executable and kernel-reducible.  Python `round` on a
quotient of two integers is embedded exactly (round-half-to-even of the
exact rational); the engine only rounds quotients of small result counts,
where the float computation and the exact rational agree.

External collaborators (the Azure client and the on-disk rule catalog)
are embedded as explicit function parameters: the cluster fetch as an
`Except` value, `load_kql_query` as `String → Option String`, and
`run_resource_graph_query` as `String → Except String (List Json)`,
where `Except.error` models a raised exception.
-/

namespace AksBpa

/-- Python `s.split(sep)` for a single-character separator, over the
character list.  `""​.split(".") = [""]`, and separators at the ends
produce empty fields, as in Python. -/
def splitCharList (sep : Char) : List Char → List (List Char)
  | [] => [[]]
  | c :: cs =>
    let r := splitCharList sep cs
    if c = sep then [] :: r
    else
      match r with
      | [] => [[c]]
      | h :: t => (c :: h) :: t

/-- Python `s.split(sep)` (single-character separator) on `String`. -/
def pySplit (sep : Char) (s : String) : List String :=
  (splitCharList sep s.data).map String.mk

/-- Python `s.replace("[", ".[")`: the tokenization step of
`_evaluate_object_key` (line 175 of `assessment_engine.py`). -/
def replaceBracket : List Char → List Char
  | [] => []
  | c :: cs => if c = '[' then '.' :: '[' :: replaceBracket cs else c :: replaceBracket cs

/-- The path tokenizer: `object_key.replace("[", ".[").split(".")`. -/
def tokenize (s : String) : List String :=
  pySplit '.' (String.mk (replaceBracket s.data))

/-- Python `str.lower()` (the engine only compares ASCII identifiers). -/
def pyLower (s : String) : String :=
  String.mk (s.data.map Char.toLower)

/-- Python whitespace for `str.strip()`. -/
def pySpace (c : Char) : Bool :=
  c = ' ' || c = '\t' || c = '\n' || c = '\r' || c = '\x0b' || c = '\x0c'

/-- Python `str.strip()`. -/
def pyTrim (s : String) : String :=
  String.mk (((s.data.dropWhile pySpace).reverse.dropWhile pySpace).reverse)

/-- Python `p in s` on strings: contiguous-substring test. -/
def isSubListOf (n : List Char) (h : List Char) : Bool :=
  n.isPrefixOf h ||
    match h with
    | [] => false
    | _ :: t => isSubListOf n t

/-- Python `c in s` for a single character `c`. -/
def pyContainsChar (c : Char) (s : String) : Bool :=
  s.data.contains c

/-- Python `s.startswith(p)`. -/
def pyStartsWith (p s : String) : Bool :=
  p.data.isPrefixOf s.data

/-- Python `s.endswith(p)`. -/
def pyEndsWith (p s : String) : Bool :=
  p.data.reverse.isPrefixOf s.data.reverse

/-- Digit accumulator for `int(...)`. -/
def parseDigits (acc : Nat) : List Char → Option Nat
  | [] => some acc
  | c :: cs => if c.isDigit then parseDigits (acc * 10 + (c.toNat - 48)) cs else none

/-- Python `int(s)`: optional surrounding whitespace, optional sign, a
non-empty digit run; anything else raises `ValueError` (embedded as
`Except.error`).  (Python also accepts digit-group underscores; the
bracket tokens this engine parses never contain them.) -/
def pyInt (s : String) : Except String Int :=
  match (pyTrim s).data with
  | [] => .error "ValueError"
  | '-' :: rest =>
    match rest with
    | [] => .error "ValueError"
    | _ =>
      match parseDigits 0 rest with
      | some n => .ok (-(n : Int))
      | none => .error "ValueError"
  | '+' :: rest =>
    match rest with
    | [] => .error "ValueError"
    | _ =>
      match parseDigits 0 rest with
      | some n => .ok (n : Int)
      | none => .error "ValueError"
  | l =>
    match parseDigits 0 l with
    | some n => .ok (n : Int)
    | none => .error "ValueError"

/-- Python `round(num / den)` for integers `num`, `den` (`den ≠ 0`),
computed on the exact rational: round-half-to-even. -/
def pyRound (num den : Int) : Int :=
  let q := num.fdiv den
  let r := num.fmod den
  if 2 * r < den then q
  else if den < 2 * r then q + 1
  else if q % 2 = 0 then q else q + 1

/-- JSON-shaped Python data: the values the engine reads from the rule
catalog and from the Azure client.  `null` doubles as Python `None`
(`json.load` maps JSON `null` to `None`). -/
inductive Json where
  | null
  | bool (b : Bool)
  | int (n : Int)
  | str (s : String)
  | arr (xs : List Json)
  | obj (kvs : List (String × Json))

mutual

def Json.beq : Json → Json → Bool
  | .null, .null => true
  | .bool a, .bool b => a == b
  | .int a, .int b => a == b
  | .str a, .str b => a == b
  | .arr a, .arr b => Json.beqList a b
  | .obj a, .obj b => Json.beqObj a b
  | _, _ => false

def Json.beqList : List Json → List Json → Bool
  | [], [] => true
  | x :: xs, y :: ys => Json.beq x y && Json.beqList xs ys
  | _, _ => false

def Json.beqObj : List (String × Json) → List (String × Json) → Bool
  | [], [] => true
  | (k, v) :: xs, (k2, v2) :: ys => k == k2 && Json.beq v v2 && Json.beqObj xs ys
  | _, _ => false

end

instance : BEq Json := ⟨Json.beq⟩

mutual

theorem Json.beq_refl : ∀ a : Json, Json.beq a a = true
  | .null => rfl
  | .bool b => by simp [Json.beq]
  | .int n => by simp [Json.beq]
  | .str s => by simp [Json.beq]
  | .arr xs => by simpa [Json.beq] using Json.beqList_refl xs
  | .obj kvs => by simpa [Json.beq] using Json.beqObj_refl kvs

theorem Json.beqList_refl : ∀ xs : List Json, Json.beqList xs xs = true
  | [] => rfl
  | x :: xs => by
      simp only [Json.beqList, Bool.and_eq_true]
      exact ⟨Json.beq_refl x, Json.beqList_refl xs⟩

theorem Json.beqObj_refl : ∀ kvs : List (String × Json), Json.beqObj kvs kvs = true
  | [] => rfl
  | (k, v) :: kvs => by
      simp only [Json.beqObj, Bool.and_eq_true]
      exact ⟨⟨by simp, Json.beq_refl v⟩, Json.beqObj_refl kvs⟩

end

mutual

theorem Json.eq_of_beq : ∀ a b : Json, Json.beq a b = true → a = b
  | .null, .null, _ => rfl
  | .bool a, .bool b, h => by
      simp only [Json.beq, beq_iff_eq] at h; rw [h]
  | .int a, .int b, h => by
      simp only [Json.beq, beq_iff_eq] at h; rw [h]
  | .str a, .str b, h => by
      simp only [Json.beq, beq_iff_eq] at h; rw [h]
  | .arr a, .arr b, h => by
      rw [Json.eq_of_beqList a b (by simpa [Json.beq] using h)]
  | .obj a, .obj b, h => by
      rw [Json.eq_of_beqObj a b (by simpa [Json.beq] using h)]
  | .null, .bool _, h => by simp [Json.beq] at h
  | .null, .int _, h => by simp [Json.beq] at h
  | .null, .str _, h => by simp [Json.beq] at h
  | .null, .arr _, h => by simp [Json.beq] at h
  | .null, .obj _, h => by simp [Json.beq] at h
  | .bool _, .null, h => by simp [Json.beq] at h
  | .bool _, .int _, h => by simp [Json.beq] at h
  | .bool _, .str _, h => by simp [Json.beq] at h
  | .bool _, .arr _, h => by simp [Json.beq] at h
  | .bool _, .obj _, h => by simp [Json.beq] at h
  | .int _, .null, h => by simp [Json.beq] at h
  | .int _, .bool _, h => by simp [Json.beq] at h
  | .int _, .str _, h => by simp [Json.beq] at h
  | .int _, .arr _, h => by simp [Json.beq] at h
  | .int _, .obj _, h => by simp [Json.beq] at h
  | .str _, .null, h => by simp [Json.beq] at h
  | .str _, .bool _, h => by simp [Json.beq] at h
  | .str _, .int _, h => by simp [Json.beq] at h
  | .str _, .arr _, h => by simp [Json.beq] at h
  | .str _, .obj _, h => by simp [Json.beq] at h
  | .arr _, .null, h => by simp [Json.beq] at h
  | .arr _, .bool _, h => by simp [Json.beq] at h
  | .arr _, .int _, h => by simp [Json.beq] at h
  | .arr _, .str _, h => by simp [Json.beq] at h
  | .arr _, .obj _, h => by simp [Json.beq] at h
  | .obj _, .null, h => by simp [Json.beq] at h
  | .obj _, .bool _, h => by simp [Json.beq] at h
  | .obj _, .int _, h => by simp [Json.beq] at h
  | .obj _, .str _, h => by simp [Json.beq] at h
  | .obj _, .arr _, h => by simp [Json.beq] at h

theorem Json.eq_of_beqList : ∀ xs ys : List Json, Json.beqList xs ys = true → xs = ys
  | [], [], _ => rfl
  | [], _ :: _, h => by simp [Json.beqList] at h
  | _ :: _, [], h => by simp [Json.beqList] at h
  | x :: xs, y :: ys, h => by
      simp only [Json.beqList, Bool.and_eq_true] at h
      rw [Json.eq_of_beq x y h.1, Json.eq_of_beqList xs ys h.2]

theorem Json.eq_of_beqObj :
    ∀ xs ys : List (String × Json), Json.beqObj xs ys = true → xs = ys
  | [], [], _ => rfl
  | [], _ :: _, h => by simp [Json.beqObj] at h
  | _ :: _, [], h => by simp [Json.beqObj] at h
  | (k, v) :: xs, (k2, v2) :: ys, h => by
      simp only [Json.beqObj, Bool.and_eq_true, beq_iff_eq] at h
      rw [h.1.1, Json.eq_of_beq v v2 h.1.2, Json.eq_of_beqObj xs ys h.2]

end

instance : LawfulBEq Json where
  eq_of_beq h := Json.eq_of_beq _ _ h
  rfl := Json.beq_refl _

instance : DecidableEq Json := fun a b =>
  decidable_of_iff (Json.beq a b = true) ⟨Json.eq_of_beq a b, fun h => h ▸ Json.beq_refl a⟩

instance {ε α : Type} [DecidableEq ε] [DecidableEq α] : DecidableEq (Except ε α) :=
  fun x y =>
    match x, y with
    | .ok a, .ok b =>
      if h : a = b then isTrue (by rw [h]) else isFalse (fun hh => h (Except.ok.inj hh))
    | .error a, .error b =>
      if h : a = b then isTrue (by rw [h]) else isFalse (fun hh => h (Except.error.inj hh))
    | .ok _, .error _ => isFalse (fun hh => Except.noConfusion hh)
    | .error _, .ok _ => isFalse (fun hh => Except.noConfusion hh)

/-- Decimal digit character. -/
def digitChar (n : Nat) : Char :=
  Char.ofNat (48 + n)

/-- Decimal digits of a natural number, most significant first; the fuel
argument (any bound on the digit count, e.g. `n + 1`) keeps the
recursion structural. -/
def natDigitsAux : Nat → Nat → List Char → List Char
  | 0, _, acc => acc
  | fuel + 1, n, acc =>
    if n < 10 then digitChar n :: acc
    else natDigitsAux fuel (n / 10) (digitChar (n % 10) :: acc)

/-- Python `str(n)` for a natural number. -/
def natToString (n : Nat) : String :=
  String.mk (natDigitsAux (n + 1) n [])

/-- Python `str(n)` for an integer. -/
def intToString : Int → String
  | .ofNat n => natToString n
  | .negSucc n => "-" ++ natToString (n + 1)

mutual

/-- Python `repr` on JSON-shaped data: what `str` uses for elements of
containers.  (Python switches a string's quotes when it contains a quote
character; the engine's catalog values do not, so plain quotes are used.) -/
def pyRepr : Json → String
  | .null => "None"
  | .bool true => "True"
  | .bool false => "False"
  | .int n => intToString n
  | .str s => "\x27" ++ s ++ "\x27"
  | .arr xs => "[" ++ String.intercalate ", " (pyReprList xs) ++ "]"
  | .obj kvs => "\x7b" ++ String.intercalate ", " (pyReprObj kvs) ++ "\x7d"

def pyReprList : List Json → List String
  | [] => []
  | x :: xs => pyRepr x :: pyReprList xs

def pyReprObj : List (String × Json) → List String
  | [] => []
  | (k, v) :: kvs => ("\x27" ++ k ++ "\x27: " ++ pyRepr v) :: pyReprObj kvs

end

/-- Python `str()` on JSON-shaped data: the identity on strings, `repr`
rendering elsewhere. -/
def pyStr : Json → String
  | .str s => s
  | v => pyRepr v

/-- Python truthiness of JSON-shaped data (`if not value`). -/
def pyTruthy : Json → Bool
  | .null => false
  | .bool b => b
  | .int n => !(n == 0)
  | .str s => !(s == "")
  | .arr xs => !xs.isEmpty
  | .obj kvs => !kvs.isEmpty

/-- A Python dict with string keys (rule records, cluster info records).
Keys are unique in records produced by `json.load`. -/
abbrev PyDict : Type := List (String × Json)

/-- Python `d.get(k)`, returning `none` when the key is absent. -/
def lookupKey (kvs : List (String × Json)) (k : String) : Option Json :=
  match kvs with
  | [] => none
  | (k2, v) :: rest => if k2 = k then some v else lookupKey rest k

/-- Python `d.get(k)` on a `PyDict`. -/
def pyGet (d : PyDict) (k : String) : Option Json :=
  lookupKey d k

/-- Python `item in container` on JSON-shaped data, `Except.error`
modelling a raised `TypeError`: list membership by equality, substring
test on strings (non-string items raise), key lookup on dicts
(unhashable items raise), and a raise on scalars, which support no
membership test.  (Python's numeric `True == 1` cross-equality is not
modelled; catalog values never mix booleans and numbers.) -/
def pyMem (item : Json) : Json → Except String Bool
  | .arr xs => .ok (xs.contains item)
  | .str t =>
    match item with
    | .str s => .ok (isSubListOf s.data t.data)
    | _ => .error "TypeError"
  | .obj kvs =>
    match item with
    | .str k => .ok (kvs.any (fun kv => kv.1 == k))
    | .arr _ => .error "TypeError"
    | .obj _ => .error "TypeError"
    | _ => .ok false
  | _ => .error "TypeError"

/-- Python `all(item in value for item in expected_value)`: short-circuit
conjunction over the generator, propagating the first raised error
(line 195 of `assessment_engine.py`). -/
def pyAll (items : List Json) (value : Json) : Except String Bool :=
  match items with
  | [] => .ok true
  | i :: rest =>
    match pyMem i value with
    | .error e => .error e
    | .ok false => .ok false
    | .ok true => pyAll rest value

/-- Python `xs[idx]` on a list: non-negative indices in range, negative
indices counted from the end, `IndexError` otherwise. -/
def pyListGet (xs : List Json) (i : Int) : Except String Json :=
  if 0 ≤ i then
    if i < (xs.length : Int) then .ok (xs.getD i.toNat .null) else .error "IndexError"
  else
    if 0 ≤ (xs.length : Int) + i then .ok (xs.getD ((xs.length : Int) + i).toNat .null)
    else .error "IndexError"

/-- The traversal loop of `_evaluate_object_key` (lines 179-188): on a
dict, `value.get(key, {})` — a missing key degrades to an empty dict; on
a list with a `[n]` token, parse the index (`int` may raise) and take
`value[idx] if idx < len(value) else {}` — the indexing itself may still
raise on a far-negative index; any other combination is
`getattr(value, key, {})`, which on JSON-shaped data (no data attributes)
yields the `{}` default.  An empty token is skipped.  `Except.error`
models an exception escaping the loop body (caught by the enclosing
`try` of `_evaluate_object_key`). -/
def walkTokens : List String → Json → Except String Json
  | [], v => .ok v
  | k :: ks, v =>
    if k = "" then walkTokens ks v
    else
      match v with
      | .obj kvs => walkTokens ks ((lookupKey kvs k).getD (.obj []))
      | .arr xs =>
        if pyStartsWith "[" k && pyEndsWith "]" k then
          match pyInt (String.mk (k.data.drop 1).dropLast) with
          | .error e => .error e
          | .ok idx =>
            if idx < (xs.length : Int) then
              match pyListGet xs idx with
              | .error e => .error e
              | .ok v2 => walkTokens ks v2
            else walkTokens ks (.obj [])
        else walkTokens ks (.obj [])
      | _ => walkTokens ks (.obj [])

/-- The trimmed, lowercased pipe-delimited alternative set of an
`object.value` string (line 192). -/
def allowedValues (s : String) : List String :=
  (pySplit '|' s).map (fun a => pyLower (pyTrim a))

/-- The comparison stage of `_evaluate_object_key` (lines 191-197):
a string expectation containing `|` is an allowed-set membership test on
lowercased strings; a list expectation is a short-circuit
every-element-present test (which may raise); anything else is
case-insensitive stringified equality. -/
def compareValues (expected : Json) (value : Json) : Except String Bool :=
  match expected with
  | .str s =>
    if pyContainsChar '|' s then
      .ok ((allowedValues s).contains (pyLower (pyStr value)))
    else .ok (pyLower (pyStr value) == pyLower s)
  | .arr items => pyAll items value
  | e => .ok (pyLower (pyStr value) == pyLower (pyStr e))

/-- `_evaluate_object_key(recommendation, cluster_data)` (lines 164-202).
Returns the `(status, value)` pair; the second component is `Json.null`
for Python `None`.  `Except.error` models the one exception that can
escape this function: tokenization (`object_key.replace`) happens before
the `try` block, so a truthy non-string `object_key` raises
`AttributeError` to the caller.  Traversal and comparison errors are
caught inside and become `("CouldNotValidate", None)`. -/
def evaluateObjectKey (rec : PyDict) (cluster_data : Json) :
    Except String (String × Json) :=
  if !pyTruthy ((pyGet rec "object_key").getD .null) ||
      (pyGet rec "object_key").getD .null == .str "CouldNotValidated" then
    .ok ("CouldNotValidate", .null)
  else
    match (pyGet rec "object_key").getD .null with
    | .str s =>
      match walkTokens (tokenize s) cluster_data with
      | .error _ => .ok ("CouldNotValidate", .null)
      | .ok value =>
        match compareValues ((pyGet rec "object.value").getD .null) value with
        | .error _ => .ok ("CouldNotValidate", .null)
        | .ok passed => .ok ((if passed then "Passed" else "Failed"), value)
    | _ => .error "AttributeError"

/-- The filtering comprehension of `_evaluate_kql_query` (lines 152-155):
keep the records whose `name` equals the assessed cluster's `name`
(`item.get("name") == cluster_info.get("name")`, both `None` when the
key is missing).  A non-dict record raises `AttributeError` at
`item.get`, modelled as `Except.error`. -/
def filterToCluster (cname : Option Json) : List Json → Except String (List Json)
  | [] => .ok []
  | item :: rest =>
    match item with
    | .obj kvs =>
      match filterToCluster cname rest with
      | .error e => .error e
      | .ok fs =>
        .ok (if lookupKey kvs "name" == cname then item :: fs else fs)
    | _ => .error "AttributeError"

/-- `_evaluate_kql_query` (lines 133-162) for a string `query_file`.
`loader` embeds `load_kql_query` (`none` = missing query file); `runner`
embeds `azure_client.run_resource_graph_query` (`Except.error` = a raised
provider error).  A missing or empty query body (`if not query`) is
`CouldNotValidate`; the query run and the filtering are inside a `try`
whose handler returns `CouldNotValidate`; otherwise a non-empty filtered
set is `Failed` and an empty one is `Passed`. -/
def evaluateKqlQuery (loader : String → Option String)
    (runner : String → Except String (List Json))
    (query_file : String) (cluster_info : PyDict) : String :=
  match loader query_file with
  | none => "CouldNotValidate"
  | some q =>
    if q = "" then "CouldNotValidate"
    else
      match runner q with
      | .error _ => "CouldNotValidate"
      | .ok results =>
        match filterToCluster (pyGet cluster_info "name") results with
        | .error _ => "CouldNotValidate"
        | .ok filtered => if filtered.length > 0 then "Failed" else "Passed"

/-- The two external collaborators of a single rule evaluation:
the rule catalog's query loader and the resource-graph query runner. -/
structure EngineCtx where
  loader : String → Option String
  runner : String → Except String (List Json)

/-- One per-rule result record as assembled by `_evaluate_recommendation`
(lines 121-131).  `actual_value`/`expected_value` are the stringified
display fields (`none` = Python `None`); the advisory fields carry the
raw catalog values (`Json.null` when absent). -/
structure RuleResult where
  recommendation_id : Json
  recommendation_name : Json
  category : Json
  status : String
  actual_value : Option String
  expected_value : Option String
  description : Json
  remediation : Json
  learn_more_link : Json
deriving DecidableEq

/-- `_evaluate_recommendation` (lines 91-131).  Dispatch: a rule with a
`query_file` key goes to the query evaluator (a non-string `query_file`
raises inside `load_kql_query`, caught by the handler on line 117 with
the error text as `actual_value`); otherwise a rule with an `object_key`
key goes to the path evaluator (whose only escaping exception is the
pre-`try` tokenization `AttributeError`, likewise caught); a rule with
neither keeps the initial `CouldNotValidate`/`None`.  The result fields
apply the `.get` defaults of lines 99-101 and the stringification and
truthiness rules of lines 126-127. -/
def evaluateRecommendation (ctx : EngineCtx) (cluster_data : Json)
    (cluster_info : PyDict) (rec : PyDict) : RuleResult :=
  let rec_id := (pyGet rec "id").getD ((pyGet rec "recommendation_name").getD (.str "unknown"))
  let rec_name := (pyGet rec "recommendation_name").getD (.str "Unknown")
  let category := (pyGet rec "category").getD (.str "Unknown")
  let expected := (pyGet rec "object.value").getD .null
  let sa : String × Json :=
    if (pyGet rec "query_file").isSome then
      match (pyGet rec "query_file").getD .null with
      | .str qf => (evaluateKqlQuery ctx.loader ctx.runner qf cluster_info, .null)
      | _ => ("CouldNotValidate", .str "Error: TypeError")
    else if (pyGet rec "object_key").isSome then
      match evaluateObjectKey rec cluster_data with
      | .ok (st, v) => (st, v)
      | .error e => ("CouldNotValidate", .str ("Error: " ++ e))
    else ("CouldNotValidate", .null)
  { recommendation_id := rec_id
    recommendation_name := rec_name
    category := category
    status := sa.1
    actual_value := if sa.2 == Json.null then none else some (pyStr sa.2)
    expected_value := if pyTruthy expected then some (pyStr expected) else none
    description := (pyGet rec "description").getD .null
    remediation := (pyGet rec "remediation").getD .null
    learn_more_link := (pyGet rec "learn_more_link").getD .null }

/-- The deduplication key of the orchestrator loop:
`rec.get("recommendation_name")`, with a missing key collapsing to
Python `None`. -/
def recKey (rec : PyDict) : Json :=
  (pyGet rec "recommendation_name").getD .null

/-- The orchestrator loop of `run_assessment` (lines 46-58): skip a rule
whose name is already in `seen`, otherwise record the name and append
its evaluation. -/
def processRecs (ctx : EngineCtx) (cluster_data : Json) (cluster_info : PyDict) :
    List PyDict → List Json → List RuleResult
  | [], _ => []
  | rec :: rest, seen =>
    if recKey rec ∈ seen then
      processRecs ctx cluster_data cluster_info rest seen
    else
      evaluateRecommendation ctx cluster_data cluster_info rec ::
        processRecs ctx cluster_data cluster_info rest (recKey rec :: seen)

/-- First-occurrence deduplication of a catalog by rule name, stated
independently of evaluation. -/
def dedupFirstAux : List PyDict → List Json → List PyDict
  | [], _ => []
  | rec :: rest, seen =>
    if recKey rec ∈ seen then dedupFirstAux rest seen
    else rec :: dedupFirstAux rest (recKey rec :: seen)

/-- The deduplicated catalog: first occurrence of every rule name, in
catalog order. -/
def dedupFirst (recs : List PyDict) : List PyDict :=
  dedupFirstAux recs []

/-- One pillar's entry in the summary (lines 224-230). -/
structure PillarScore where
  score : Int
  passed : Nat
  failed : Nat
  not_validated : Nat
  total : Nat
deriving DecidableEq

/-- The summary record built by `_calculate_summary` (lines 236-243). -/
structure AssessmentSummary where
  overall_score : Int
  total_checks : Nat
  passed : Nat
  failed : Nat
  not_validated : Nat
  pillar_scores : List (String × PillarScore)
deriving DecidableEq

/-- The five pillar names of `PILLARS` in `recommendations.py` (the
engine reads only the `name` field). -/
def PILLAR_NAMES : List String :=
  ["Reliability", "Security", "Cost Optimization", "Operational Excellence",
   "Performance Efficiency"]

/-- The pillar entry of `_calculate_summary` for one pillar name
(lines 214-230): counts over the results whose `category` equals the
pillar name, and `round(pillar_passed / pillar_total * 100)` when the
pillar has results, else `0`. -/
def pillarEntry (results : List RuleResult) (name : String) : PillarScore :=
  let pr := results.filter (fun r => r.category == Json.str name)
  let pillar_total := pr.length
  let pillar_passed := pr.countP (fun r => r.status == "Passed")
  { score :=
      if pillar_total > 0 then pyRound ((pillar_passed : Int) * 100) (pillar_total : Int)
      else 0
    passed := pillar_passed
    failed := pr.countP (fun r => r.status == "Failed")
    not_validated := pr.countP (fun r => r.status == "CouldNotValidate")
    total := pillar_total }

/-- `_calculate_summary(results)` (lines 204-243). -/
def calculateSummary (results : List RuleResult) : AssessmentSummary :=
  let passed := results.countP (fun r => r.status == "Passed")
  let failed := results.countP (fun r => r.status == "Failed")
  let validated_total := passed + failed
  { overall_score :=
      if validated_total > 0 then pyRound ((passed : Int) * 100) (validated_total : Int)
      else 0
    total_checks := results.length
    passed := passed
    failed := failed
    not_validated := results.countP (fun r => r.status == "CouldNotValidate")
    pillar_scores := PILLAR_NAMES.map (fun name => (name, pillarEntry results name)) }

/-- The inputs of one `run_assessment` call: the cluster fetch outcome
(`Except.error` = `get_cluster` raised), the loaded rule catalog, and
the two query collaborators. -/
structure RunInput where
  fetch : Except String PyDict
  recommendations : List PyDict
  loader : String → Option String
  runner : String → Except String (List Json)

/-- The observable fields of the dictionary `run_assessment` returns
(lines 63-89); the generated `scan_id`, the echoed target identity and
the wall-clock timestamps are omitted.  `error_message = none` models
the key being absent from the completed-run dictionary. -/
structure AssessmentRun where
  status : String
  cluster_id : Json
  error_message : Option String
  summary : Option AssessmentSummary
  results : List RuleResult
deriving DecidableEq

/-- `run_assessment` (lines 20-89): a failed fetch short-circuits to a
`failed` run with empty results, no summary and the error text; after a
successful fetch the deduplicating loop and the scorer run and the
status is `completed`. -/
def runAssessment (inp : RunInput) : AssessmentRun :=
  match inp.fetch with
  | .error e =>
    { status := "failed", cluster_id := .null, error_message := some e,
      summary := none, results := [] }
  | .ok cluster_info =>
    let cluster_data := (pyGet cluster_info "_raw").getD (.obj [])
    let results :=
      processRecs ⟨inp.loader, inp.runner⟩ cluster_data cluster_info inp.recommendations []
    { status := "completed"
      cluster_id := (pyGet cluster_info "id").getD .null
      error_message := none
      summary := some (calculateSummary results)
      results := results }

/-! ## Helper lemmas -/

/-- A truthy string-valued `object_key` that is not the sentinel routes
`_evaluate_object_key` into traversal followed by comparison. -/
theorem evaluateObjectKey_str (rec : PyDict) (tree : Json) (s : String)
    (h : pyGet rec "object_key" = some (.str s)) (hs : s ≠ "")
    (hsent : s ≠ "CouldNotValidated") :
    evaluateObjectKey rec tree =
      match walkTokens (tokenize s) tree with
      | .error _ => .ok ("CouldNotValidate", .null)
      | .ok value =>
        match compareValues ((pyGet rec "object.value").getD .null) value with
        | .error _ => .ok ("CouldNotValidate", .null)
        | .ok passed => .ok ((if passed then "Passed" else "Failed"), value) := by
  have hbeq : (Json.str s == Json.str "CouldNotValidated") = false := by
    have : Json.beq (Json.str s) (Json.str "CouldNotValidated") = (s == "CouldNotValidated") := rfl
    simp only [BEq.beq] at *
    rw [this]
    exact beq_eq_false_iff_ne.mpr hsent
  simp only [evaluateObjectKey, h, Option.getD_some, pyTruthy, hbeq, Bool.or_false,
    beq_eq_false_iff_ne.mpr hs, Bool.not_false, Bool.not_true, Bool.false_or]
  simp

/-! ## C1 — degraded traversal through missing keys / out-of-range indices -/

/-- C1 counterexample: for the direct-mode rule with `object_key`
`"a.b"` and `expected_value` `"true"` evaluated against an empty
configuration tree, the path traverses a missing mapping key, yet the
evaluator returns status `Failed` (with the degraded empty dict as the
resolved value) — not `Undetermined` (`CouldNotValidate`) as the claim
states. -/
theorem c1_counterexample :
    evaluateObjectKey [("object_key", .str "a.b"), ("object.value", .str "true")]
        (.obj []) = .ok ("Failed", .obj []) ∧
      "Failed" ≠ "CouldNotValidate" := by
  constructor
  · decide
  · decide

/-- C1 (amended): for every direct-mode rule whose `attribute_path`
traverses a missing mapping key or an out-of-range non-negative sequence
index, traversal degrades to an empty mapping and continues (it does not
raise); the evaluator then proceeds to the comparison and returns
`Passed` or `Failed` for the degraded resolved value — not
`Undetermined` — carrying the degraded value back as `actual_value`, and
no exception propagates (the result is an `Except.ok`). -/
theorem c1_degraded_path_theorem :
    (∀ (kvs : List (String × Json)) (k : String) (ks : List String),
      k ≠ "" → lookupKey kvs k = none →
        walkTokens (k :: ks) (.obj kvs) = walkTokens ks (.obj [])) ∧
    (∀ (xs : List Json) (t : String) (n : Int) (ks : List String),
      pyStartsWith "[" t = true → pyEndsWith "]" t = true →
      pyInt (String.mk (t.data.drop 1).dropLast) = .ok n → (xs.length : Int) ≤ n →
        walkTokens (t :: ks) (.arr xs) = walkTokens ks (.obj [])) ∧
    (∀ (rec : PyDict) (tree : Json) (s : String) (v : Json) (b : Bool),
      pyGet rec "object_key" = some (.str s) → s ≠ "" → s ≠ "CouldNotValidated" →
      walkTokens (tokenize s) tree = .ok v →
      compareValues ((pyGet rec "object.value").getD .null) v = .ok b →
        evaluateObjectKey rec tree = .ok ((if b then "Passed" else "Failed"), v)) := by
  refine ⟨?_, ?_, ?_⟩
  · intro kvs k ks hk hnone
    simp only [walkTokens, if_neg hk, hnone, Option.getD_none]
  · intro xs t n ks hs he hp hlen
    have ht : t ≠ "" := by
      intro h
      rw [h] at hs
      exact absurd hs (by decide)
    simp only [walkTokens, if_neg ht, hs, he, Bool.and_self, if_pos rfl, hp,
      if_neg (not_lt.mpr hlen), if_true]
  · intro rec tree s v b h hs hsent hwalk hcmp
    rw [evaluateObjectKey_str rec tree s h hs hsent, hwalk]
    simp only [hcmp]

/-- C1 amended-claim witness: a rule whose path hits a missing key
degrades to `{}` and compares to `Failed`. -/
theorem c1_degraded_path_theorem_witness :
    evaluateObjectKey [("object_key", .str "a.b"), ("object.value", .str "x|y")]
        (.obj [("a", .obj [("z", .int 1)])]) = .ok ("Failed", .obj []) := by
  have h := c1_degraded_path_theorem.2.2
    [("object_key", .str "a.b"), ("object.value", .str "x|y")]
    (.obj [("a", .obj [("z", .int 1)])]) "a.b" (.obj []) false
    (by decide) (by decide) (by decide) (by decide) (by decide)
  exact h

/-! ## C2 — pillar scoring -/

/-- A result record with the given category and status (the other fields
are irrelevant to the scorer). -/
def mkResult (cat st : String) : RuleResult :=
  { recommendation_id := .str "r", recommendation_name := .str "r",
    category := .str cat, status := st, actual_value := none,
    expected_value := none, description := .null, remediation := .null,
    learn_more_link := .null }

/-- C2 counterexample: for a pillar with exactly three `Passed`, one
`Failed` and one `CouldNotValidate` result, `_calculate_summary` divides
by the full pillar total (5, `Undetermined` included), reporting
`round(3/5*100) = 60` — not `round(3/4*100) = 75` as the claim states. -/
theorem c2_counterexample :
    (calculateSummary [mkResult "Reliability" "Passed", mkResult "Reliability" "Passed",
        mkResult "Reliability" "Passed", mkResult "Reliability" "Failed",
        mkResult "Reliability" "CouldNotValidate"]).pillar_scores =
      [("Reliability", ⟨60, 3, 1, 1, 5⟩), ("Security", ⟨0, 0, 0, 0, 0⟩),
       ("Cost Optimization", ⟨0, 0, 0, 0, 0⟩), ("Operational Excellence", ⟨0, 0, 0, 0, 0⟩),
       ("Performance Efficiency", ⟨0, 0, 0, 0, 0⟩)] ∧
      (60 : Int) ≠ 75 := by
  constructor
  · decide
  · decide

/-- C2 (amended): for a pillar whose results are exactly three `Passed`,
one `Failed` and one `Undetermined`, the scorer reports
`pillar_score = round(3/5*100) = 60` (the pillar denominator counts all
results of the pillar, `Undetermined` included) and `total = 5`; and a
pillar with zero applicable results still appears in the map with score
`0` and all counts `0`. -/
theorem c2_pillar_scoring :
    (∀ results : List RuleResult,
      (results.filter (fun r => r.category == Json.str "Reliability")).length = 5 →
      (results.filter (fun r => r.category == Json.str "Reliability")).countP
          (fun r => r.status == "Passed") = 3 →
      (results.filter (fun r => r.category == Json.str "Reliability")).countP
          (fun r => r.status == "Failed") = 1 →
      (results.filter (fun r => r.category == Json.str "Reliability")).countP
          (fun r => r.status == "CouldNotValidate") = 1 →
        pyRound 300 5 = 60 ∧
        ("Reliability", (⟨60, 3, 1, 1, 5⟩ : PillarScore)) ∈
          (calculateSummary results).pillar_scores) ∧
    (∀ (results : List RuleResult) (name : String), name ∈ PILLAR_NAMES →
      (results.filter (fun r => r.category == Json.str name)).length = 0 →
        (name, (⟨0, 0, 0, 0, 0⟩ : PillarScore)) ∈
          (calculateSummary results).pillar_scores) := by
  constructor
  · intro results hlen hp hf hc
    refine ⟨by decide, ?_⟩
    have hentry : pillarEntry results "Reliability" = ⟨60, 3, 1, 1, 5⟩ := by
      simp only [pillarEntry, hlen, hp, hf, hc]
      decide
    have : ("Reliability", pillarEntry results "Reliability") ∈
        (calculateSummary results).pillar_scores := by
      simp only [calculateSummary, List.mem_map]
      exact ⟨"Reliability", by decide, rfl⟩
    rwa [hentry] at this
  · intro results name hname hlen
    have hnil : results.filter (fun r => r.category == Json.str name) = [] :=
      List.length_eq_zero.mp hlen
    have hentry : pillarEntry results name = ⟨0, 0, 0, 0, 0⟩ := by
      simp only [pillarEntry, hnil]
      decide
    have : (name, pillarEntry results name) ∈ (calculateSummary results).pillar_scores := by
      simp only [calculateSummary, List.mem_map]
      exact ⟨name, hname, rfl⟩
    rwa [hentry] at this

/-- C2 amended-claim witness at a concrete result list. -/
theorem c2_pillar_scoring_witness :
    ("Reliability", (⟨60, 3, 1, 1, 5⟩ : PillarScore)) ∈
      (calculateSummary [mkResult "Reliability" "Passed", mkResult "Reliability" "Passed",
        mkResult "Reliability" "Passed", mkResult "Reliability" "Failed",
        mkResult "Reliability" "CouldNotValidate"]).pillar_scores ∧
    ("Security", (⟨0, 0, 0, 0, 0⟩ : PillarScore)) ∈
      (calculateSummary [mkResult "Reliability" "Passed", mkResult "Reliability" "Passed",
        mkResult "Reliability" "Passed", mkResult "Reliability" "Failed",
        mkResult "Reliability" "CouldNotValidate"]).pillar_scores := by
  constructor
  · exact ((c2_pillar_scoring.1 _ (by decide) (by decide) (by decide) (by decide)).2)
  · exact (c2_pillar_scoring.2 _ "Security" (by decide) (by decide))

/-! ## C3 — overall score excludes Undetermined -/

/-- Dropping the `CouldNotValidate` results changes neither the
`Passed` nor the `Failed` count. -/
theorem countP_filter_not_cnv (l : List RuleResult) (st : String)
    (hst : st ≠ "CouldNotValidate") :
    (l.filter (fun r => !(r.status == "CouldNotValidate"))).countP
        (fun r => r.status == st) =
      l.countP (fun r => r.status == st) := by
  induction l with
  | nil => rfl
  | cons r l ih =>
    by_cases hr : r.status = "CouldNotValidate"
    · have h2 : (r.status == st) = false := by
        simp only [beq_eq_false_iff_ne]
        rw [hr]
        exact fun h => hst h.symm
      simp [List.filter_cons, List.countP_cons, hr, h2, ih]
      exact fun h => hst h.symm
    · simp [List.filter_cons, List.countP_cons, hr, ih]

/-- C3: the overall score is
`round(passed / (passed + failed) * 100)` when `passed + failed > 0` and
`0` otherwise; it is invariant under removing the `CouldNotValidate`
results (they are excluded from numerator and denominator); and the
concrete mix {Passed×2, Failed×2, Undetermined×6} scores 50. -/
theorem c3_overall_score :
    (∀ results : List RuleResult,
      (calculateSummary results).overall_score =
        if results.countP (fun r => r.status == "Passed") +
            results.countP (fun r => r.status == "Failed") > 0 then
          pyRound ((results.countP (fun r => r.status == "Passed") : Int) * 100)
            ((results.countP (fun r => r.status == "Passed") +
              results.countP (fun r => r.status == "Failed") : Nat) : Int)
        else 0) ∧
    (∀ results : List RuleResult,
      (calculateSummary
          (results.filter (fun r => !(r.status == "CouldNotValidate")))).overall_score =
        (calculateSummary results).overall_score) ∧
    (calculateSummary [mkResult "Security" "Passed", mkResult "Security" "Passed",
        mkResult "Security" "Failed", mkResult "Reliability" "Failed",
        mkResult "Reliability" "CouldNotValidate", mkResult "Reliability" "CouldNotValidate",
        mkResult "Security" "CouldNotValidate", mkResult "Security" "CouldNotValidate",
        mkResult "Security" "CouldNotValidate",
        mkResult "Security" "CouldNotValidate"]).overall_score = 50 := by
  refine ⟨fun results => rfl, fun results => ?_, by decide⟩
  simp only [calculateSummary,
    countP_filter_not_cnv results "Passed" (by decide),
    countP_filter_not_cnv results "Failed" (by decide)]

/-! ## C4 — fetch failure is the only failed path -/

/-- C4: `run_assessment` returns `status = "failed"` with empty results,
no summary and the error message exactly when the configuration fetch
fails (no rule is evaluated on that path — the returned results are
empty); once the fetch has succeeded the run returns
`status = "completed"` with a summary and no error message, whatever the
rules evaluate to. -/
theorem c4_fetch_failure :
    (∀ (inp : RunInput) (e : String), inp.fetch = .error e →
      runAssessment inp =
        { status := "failed", cluster_id := .null, error_message := some e,
          summary := none, results := [] }) ∧
    (∀ (inp : RunInput) (info : PyDict), inp.fetch = .ok info →
      (runAssessment inp).status = "completed" ∧
      (runAssessment inp).error_message = none ∧
      (runAssessment inp).summary =
        some (calculateSummary (runAssessment inp).results)) ∧
    (∀ inp : RunInput,
      (runAssessment inp).status = "failed" ↔ ∃ e, inp.fetch = .error e) := by
  refine ⟨?_, ?_, ?_⟩
  · intro inp e he
    simp only [runAssessment, he]
  · intro inp info hi
    simp [runAssessment, hi]
  · intro inp
    match h : inp.fetch with
    | .error e =>
      have hs : (runAssessment inp).status = "failed" := by simp [runAssessment, h]
      exact ⟨fun _ => ⟨e, rfl⟩, fun _ => hs⟩
    | .ok info =>
      have hs : (runAssessment inp).status = "completed" := by simp [runAssessment, h]
      constructor
      · intro hc
        rw [hs] at hc
        exact absurd hc (by decide)
      · rintro ⟨e, he⟩
        exact absurd he (by simp)

/-- C4 witness: a concrete failing fetch and a concrete successful
fetch. -/
theorem c4_fetch_failure_witness :
    runAssessment
        { fetch := .error "ResourceNotFound", recommendations := [],
          loader := fun _ => none, runner := fun _ => .ok [] } =
      { status := "failed", cluster_id := .null,
        error_message := some "ResourceNotFound", summary := none, results := [] } ∧
    (runAssessment
        { fetch := .ok [("name", .str "c1")],
          recommendations := [[("recommendation_name", .str "r")]],
          loader := fun _ => none, runner := fun _ => .ok [] }).status = "completed" := by
  constructor
  · exact c4_fetch_failure.1 _ "ResourceNotFound" rfl
  · exact (c4_fetch_failure.2.1 _ [("name", .str "c1")] rfl).1

/-! ## C5 — query-mode inversion semantics -/

/-- C5: for a query-mode rule, an absent query body (`load_kql_query`
returns `None`, or the falsy empty body) yields `CouldNotValidate`; a
raised query execution yields `CouldNotValidate`; and when the query
runs, the status is `Failed` exactly when the record set filtered to the
assessed cluster's name is non-empty and `Passed` exactly when it is
empty. -/
theorem c5_query_mode :
    ∀ (loader : String → Option String) (runner : String → Except String (List Json))
      (qf : String) (info : PyDict),
    (loader qf = none → evaluateKqlQuery loader runner qf info = "CouldNotValidate") ∧
    (loader qf = some "" → evaluateKqlQuery loader runner qf info = "CouldNotValidate") ∧
    (∀ q e, loader qf = some q → q ≠ "" → runner q = .error e →
      evaluateKqlQuery loader runner qf info = "CouldNotValidate") ∧
    (∀ q records fs, loader qf = some q → q ≠ "" → runner q = .ok records →
      filterToCluster (pyGet info "name") records = .ok fs →
      ((evaluateKqlQuery loader runner qf info = "Failed" ↔ fs ≠ []) ∧
        (evaluateKqlQuery loader runner qf info = "Passed" ↔ fs = []))) := by
  intro loader runner qf info
  refine ⟨?_, ?_, ?_, ?_⟩
  · intro h
    simp [evaluateKqlQuery, h]
  · intro h
    simp [evaluateKqlQuery, h]
  · intro q e hl hq hr
    simp [evaluateKqlQuery, hl, hq, hr]
  · intro q records fs hl hq hr hf
    have he : evaluateKqlQuery loader runner qf info =
        if fs.length > 0 then "Failed" else "Passed" := by
      simp [evaluateKqlQuery, hl, hq, hr, hf]
    match fs with
    | [] =>
      rw [he]
      constructor
      · simp
      · simp
    | x :: fs =>
      rw [he]
      constructor
      · simp
      · constructor
        · intro h
          simp at h
        · intro h
          exact absurd h (by simp)

/-- C5 witness: concrete query outcomes exercising all four branches. -/
theorem c5_query_mode_witness :
    evaluateKqlQuery (fun _ => none) (fun _ => .ok []) "q.kql" [("name", .str "c1")] =
      "CouldNotValidate" ∧
    evaluateKqlQuery (fun _ => some "q") (fun _ => .error "Timeout") "q.kql"
        [("name", .str "c1")] = "CouldNotValidate" ∧
    evaluateKqlQuery (fun _ => some "q")
        (fun _ => .ok [.obj [("name", .str "c1")], .obj [("name", .str "c2")]]) "q.kql"
        [("name", .str "c1")] = "Failed" ∧
    evaluateKqlQuery (fun _ => some "q") (fun _ => .ok [.obj [("name", .str "c2")]]) "q.kql"
        [("name", .str "c1")] = "Passed" := by
  refine ⟨?_, ?_, ?_, ?_⟩
  · exact (c5_query_mode (fun _ => none) (fun _ => .ok []) "q.kql"
      [("name", .str "c1")]).1 rfl
  · exact (c5_query_mode (fun _ => some "q") (fun _ => .error "Timeout") "q.kql"
      [("name", .str "c1")]).2.2.1 "q" "Timeout" rfl (by decide) rfl
  · exact ((c5_query_mode (fun _ => some "q")
      (fun _ => .ok [.obj [("name", .str "c1")], .obj [("name", .str "c2")]]) "q.kql"
      [("name", .str "c1")]).2.2.2 "q" [.obj [("name", .str "c1")], .obj [("name", .str "c2")]]
      [.obj [("name", .str "c1")]] rfl (by decide) rfl (by decide)).1.mpr (by decide)
  · exact ((c5_query_mode (fun _ => some "q") (fun _ => .ok [.obj [("name", .str "c2")]]) "q.kql"
      [("name", .str "c1")]).2.2.2 "q" [.obj [("name", .str "c2")]] [] rfl (by decide) rfl
      (by decide)).2.mpr rfl

/-! ## C6 — deduplication by rule name, first occurrence, catalog order -/

/-- The orchestrator loop is evaluation mapped over the deduplicated
catalog. -/
theorem processRecs_eq_map (ctx : EngineCtx) (cd : Json) (ci : PyDict) :
    ∀ (recs : List PyDict) (seen : List Json),
      processRecs ctx cd ci recs seen =
        (dedupFirstAux recs seen).map (evaluateRecommendation ctx cd ci) := by
  intro recs
  induction recs with
  | nil => intro seen; rfl
  | cons rec rest ih =>
    intro seen
    by_cases h : recKey rec ∈ seen
    · simp [processRecs, dedupFirstAux, h, ih]
    · simp [processRecs, dedupFirstAux, h, ih]

theorem dedupFirstAux_sublist :
    ∀ (recs : List PyDict) (seen : List Json), (dedupFirstAux recs seen).Sublist recs := by
  intro recs
  induction recs with
  | nil => intro seen; exact List.Sublist.refl []
  | cons rec rest ih =>
    intro seen
    by_cases h : recKey rec ∈ seen
    · simpa [dedupFirstAux, h] using (ih seen).cons rec
    · simpa [dedupFirstAux, h] using (ih (recKey rec :: seen)).cons₂ rec

/-- Nothing kept by the deduplicating pass carries a name that was
already seen. -/
theorem dedupFirstAux_not_seen :
    ∀ (recs : List PyDict) (seen : List Json) (r : PyDict),
      r ∈ dedupFirstAux recs seen → recKey r ∉ seen := by
  intro recs
  induction recs with
  | nil => intro seen r hr; simp [dedupFirstAux] at hr
  | cons rec rest ih =>
    intro seen r hr
    by_cases h : recKey rec ∈ seen
    · rw [dedupFirstAux, if_pos h] at hr
      exact ih seen r hr
    · rw [dedupFirstAux, if_neg h] at hr
      rcases List.mem_cons.mp hr with h1 | h1
      · subst h1
        exact h
      · intro hmem
        exact ih (recKey rec :: seen) r h1 (List.mem_cons_of_mem _ hmem)

/-- The kept rules have pairwise distinct names. -/
theorem dedupFirstAux_nodup_keys :
    ∀ (recs : List PyDict) (seen : List Json),
      ((dedupFirstAux recs seen).map recKey).Nodup := by
  intro recs
  induction recs with
  | nil => intro seen; simp [dedupFirstAux]
  | cons rec rest ih =>
    intro seen
    by_cases h : recKey rec ∈ seen
    · simpa [dedupFirstAux, h] using ih seen
    · rw [dedupFirstAux, if_neg h]
      rw [List.map_cons, List.nodup_cons]
      refine ⟨?_, ih (recKey rec :: seen)⟩
      intro hmem
      rcases List.mem_map.mp hmem with ⟨r, hr, hkey⟩
      exact dedupFirstAux_not_seen rest (recKey rec :: seen) r hr
        (hkey ▸ List.mem_cons_self (recKey rec) seen)

/-- Every kept rule is the first rule of the catalog bearing its name. -/
theorem dedupFirstAux_find_first :
    ∀ (recs : List PyDict) (seen : List Json) (r : PyDict),
      r ∈ dedupFirstAux recs seen →
        recs.find? (fun x => recKey x == recKey r) = some r := by
  intro recs
  induction recs with
  | nil => intro seen r hr; simp [dedupFirstAux] at hr
  | cons rec rest ih =>
    intro seen r hr
    by_cases h : recKey rec ∈ seen
    · rw [dedupFirstAux, if_pos h] at hr
      have hne : recKey rec ≠ recKey r := by
        intro heq
        exact dedupFirstAux_not_seen rest seen r hr (heq ▸ h)
      rw [List.find?_cons_of_neg _ (by simpa using hne)]
      exact ih seen r hr
    · rw [dedupFirstAux, if_neg h] at hr
      rcases List.mem_cons.mp hr with h1 | h1
      · subst h1
        exact List.find?_cons_of_pos _ (by simp)
      · have hne : recKey rec ≠ recKey r := by
          intro heq
          exact dedupFirstAux_not_seen rest (recKey rec :: seen) r h1
            (heq ▸ List.mem_cons_self (recKey rec) seen)
        rw [List.find?_cons_of_neg _ (by simpa using hne)]
        exact ih (recKey rec :: seen) r h1

/-- Every rule name of the catalog is represented among the kept
rules (or was already in the accumulator). -/
theorem dedupFirstAux_keys_complete :
    ∀ (recs : List PyDict) (seen : List Json) (rec : PyDict), rec ∈ recs →
      recKey rec ∈ seen ∨ recKey rec ∈ (dedupFirstAux recs seen).map recKey := by
  intro recs
  induction recs with
  | nil => intro seen rec hr; simp at hr
  | cons rec0 rest ih =>
    intro seen rec hr
    by_cases h : recKey rec0 ∈ seen
    · rw [dedupFirstAux, if_pos h]
      rcases List.mem_cons.mp hr with h1 | h1
      · subst h1
        exact Or.inl h
      · exact ih seen rec h1
    · rw [dedupFirstAux, if_neg h]
      rcases List.mem_cons.mp hr with h1 | h1
      · subst h1
        exact Or.inr (by simp)
      · rcases ih (recKey rec0 :: seen) rec h1 with h2 | h2
        · rcases List.mem_cons.mp h2 with h3 | h3
          · exact Or.inr (by simp [h3])
          · exact Or.inl h3
        · exact Or.inr (List.mem_cons_of_mem _ h2)

/-- C6: the orchestrator produces exactly the deduplicated catalog's
evaluations: one `RuleResult` per distinct rule name (the kept names are
pairwise distinct and every catalog name is represented), each produced
from the first catalog occurrence of its name, and the result list
preserves catalog order (the deduplicated catalog is a sublist of the
catalog). -/
theorem c6_dedup_first_occurrence :
    ∀ (ctx : EngineCtx) (cd : Json) (ci : PyDict) (recs : List PyDict),
      processRecs ctx cd ci recs [] =
        (dedupFirst recs).map (evaluateRecommendation ctx cd ci) ∧
      (dedupFirst recs).Sublist recs ∧
      ((dedupFirst recs).map recKey).Nodup ∧
      (∀ r ∈ dedupFirst recs, recs.find? (fun x => recKey x == recKey r) = some r) ∧
      (∀ rec ∈ recs, recKey rec ∈ (dedupFirst recs).map recKey) := by
  intro ctx cd ci recs
  refine ⟨processRecs_eq_map ctx cd ci recs [], dedupFirstAux_sublist recs [],
    dedupFirstAux_nodup_keys recs [], fun r hr => dedupFirstAux_find_first recs [] r hr,
    fun rec hr => ?_⟩
  rcases dedupFirstAux_keys_complete recs [] rec hr with h | h
  · simp at h
  · exact h

/-- C6 witness: a catalog with a repeated rule name; the second
occurrence (a query-mode body) is dropped and the first occurrence's
direct-mode evaluation is used, in catalog order. -/
theorem c6_dedup_first_occurrence_witness :
    processRecs ⟨fun _ => none, fun _ => .ok []⟩ (.obj []) []
        [[("recommendation_name", .str "n"), ("object_key", .str "a"),
          ("object.value", .str "1")],
         [("recommendation_name", .str "n"), ("query_file", .str "q.kql")],
         [("recommendation_name", .str "m"), ("object_key", .str "b"),
          ("object.value", .str "2")]] [] =
      [evaluateRecommendation ⟨fun _ => none, fun _ => .ok []⟩ (.obj []) []
        [("recommendation_name", .str "n"), ("object_key", .str "a"),
          ("object.value", .str "1")],
       evaluateRecommendation ⟨fun _ => none, fun _ => .ok []⟩ (.obj []) []
        [("recommendation_name", .str "m"), ("object_key", .str "b"),
          ("object.value", .str "2")]] ∧
    [[("recommendation_name", .str "n"), ("object_key", .str "a"),
        ("object.value", .str "1")],
     [("recommendation_name", .str "n"), ("query_file", .str "q.kql")],
     [("recommendation_name", .str "m"), ("object_key", .str "b"),
        ("object.value", .str "2")]].find?
      (fun x => recKey x == recKey [("recommendation_name", .str "n"),
        ("object_key", .str "a"), ("object.value", .str "1")]) =
      some [("recommendation_name", .str "n"), ("object_key", .str "a"),
        ("object.value", .str "1")] := by
  constructor
  · rw [(c6_dedup_first_occurrence ⟨fun _ => none, fun _ => .ok []⟩ (.obj []) [] _).1]
    have hd :
        dedupFirst
          [[("recommendation_name", Json.str "n"), ("object_key", Json.str "a"),
            ("object.value", Json.str "1")],
           [("recommendation_name", Json.str "n"), ("query_file", Json.str "q.kql")],
           [("recommendation_name", Json.str "m"), ("object_key", Json.str "b"),
            ("object.value", Json.str "2")]] =
          [[("recommendation_name", Json.str "n"), ("object_key", Json.str "a"),
            ("object.value", Json.str "1")],
           [("recommendation_name", Json.str "m"), ("object_key", Json.str "b"),
            ("object.value", Json.str "2")]] := by decide
    rw [hd]
    rfl
  · exact (c6_dedup_first_occurrence ⟨fun _ => none, fun _ => .ok []⟩ (.obj []) [] _).2.2.2.1
      _ (by decide)

/-! ## C7 — list-valued expected_value -/

theorem pyAll_ok_true_iff (items : List Json) (v : Json) :
    pyAll items v = .ok true ↔ ∀ i ∈ items, pyMem i v = .ok true := by
  induction items with
  | nil => simp [pyAll]
  | cons i rest ih =>
    cases hm : pyMem i v with
    | error e => simp [pyAll, hm, List.forall_mem_cons]
    | ok b =>
      cases b
      · simp [pyAll, hm, List.forall_mem_cons]
      · simp [pyAll, hm, List.forall_mem_cons, ih]

theorem pyAll_ok_false_iff (items : List Json) (v : Json)
    (hall : ∀ i ∈ items, ∃ b, pyMem i v = .ok b) :
    pyAll items v = .ok false ↔ ∃ i ∈ items, pyMem i v = .ok false := by
  induction items with
  | nil => simp [pyAll]
  | cons i rest ih =>
    have hhd : ∃ b, pyMem i v = .ok b := hall i (List.mem_cons_self i rest)
    rcases hhd with ⟨b, hm⟩
    have hrest : ∀ j ∈ rest, ∃ b, pyMem j v = .ok b :=
      fun j hj => hall j (List.mem_cons_of_mem i hj)
    cases b
    · simp [pyAll, hm]
    · simp only [pyAll, hm, ih hrest]
      constructor
      · rintro ⟨j, hj, hjf⟩
        exact ⟨j, List.mem_cons_of_mem i hj, hjf⟩
      · rintro ⟨j, hj, hjf⟩
        rcases List.mem_cons.mp hj with h1 | h1
        · subst h1
          rw [hm] at hjf
          exact absurd hjf (by simp)
        · exact ⟨j, h1, hjf⟩

/-- C7 counterexample: a direct-mode rule whose `expected_value` is the
list `["x"]` and whose path resolves to the scalar `5`: every listed
element is missing from the resolved value, yet the membership test
raises `TypeError` and the evaluator returns `CouldNotValidate`
(Undetermined) with no actual value — not `Failed` as the claim
states. -/
theorem c7_counterexample :
    evaluateObjectKey [("object_key", .str "a"), ("object.value", .arr [.str "x"])]
        (.obj [("a", .int 5)]) = .ok ("CouldNotValidate", .null) ∧
      "CouldNotValidate" ≠ "Failed" := by
  constructor
  · decide
  · decide

/-- C7 (amended): for a direct-mode rule whose `expected_value` is a
list, when every membership test of a listed element against the
resolved value succeeds (the resolved value supports the test), the
status is `Passed` iff every listed element is present and `Failed` iff
some listed element is absent; when the membership test raises (e.g. a
scalar resolved value), the status is `Undetermined`
(`CouldNotValidate`) with no actual value. -/
theorem c7_list_subset :
    ∀ (rec : PyDict) (tree : Json) (s : String) (v : Json) (items : List Json),
      pyGet rec "object_key" = some (.str s) → s ≠ "" → s ≠ "CouldNotValidated" →
      walkTokens (tokenize s) tree = .ok v →
      pyGet rec "object.value" = some (.arr items) →
      ((∀ i ∈ items, ∃ b, pyMem i v = .ok b) →
        ((evaluateObjectKey rec tree = .ok ("Passed", v) ↔
            ∀ i ∈ items, pyMem i v = .ok true) ∧
          (evaluateObjectKey rec tree = .ok ("Failed", v) ↔
            ∃ i ∈ items, pyMem i v = .ok false))) ∧
      (∀ e, pyAll items v = .error e →
        evaluateObjectKey rec tree = .ok ("CouldNotValidate", .null)) := by
  intro rec tree s v items h hs hsent hwalk hexp
  have hE : evaluateObjectKey rec tree =
      match pyAll items v with
      | .error _ => .ok ("CouldNotValidate", .null)
      | .ok passed => .ok ((if passed then "Passed" else "Failed"), v) := by
    rw [evaluateObjectKey_str rec tree s h hs hsent, hwalk, hexp]
    rfl
  constructor
  · intro hall
    constructor
    · constructor
      · intro hP
        cases hb : pyAll items v with
        | error e =>
          rw [hE, hb] at hP
          simp only [Except.ok.injEq, Prod.mk.injEq] at hP
          exact absurd hP.1 (by decide)
        | ok b =>
          cases b
          · rw [hE, hb] at hP
            simp only [Except.ok.injEq, Prod.mk.injEq] at hP
            exact absurd hP.1 (by decide)
          · exact (pyAll_ok_true_iff items v).mp hb
      · intro hforall
        rw [hE, (pyAll_ok_true_iff items v).mpr hforall]
        rfl
    · constructor
      · intro hF
        cases hb : pyAll items v with
        | error e =>
          rw [hE, hb] at hF
          simp only [Except.ok.injEq, Prod.mk.injEq] at hF
          exact absurd hF.1 (by decide)
        | ok b =>
          cases b
          · exact (pyAll_ok_false_iff items v hall).mp hb
          · rw [hE, hb] at hF
            simp only [Except.ok.injEq, Prod.mk.injEq] at hF
            exact absurd hF.1 (by decide)
      · intro hex
        rw [hE, (pyAll_ok_false_iff items v hall).mpr hex]
        rfl
  · intro e he
    rw [hE, he]

/-- C7 amended-claim witness: a resolved list missing one expected
element is `Failed`; a scalar resolved value is `CouldNotValidate`. -/
theorem c7_list_subset_witness :
    evaluateObjectKey [("object_key", .str "a"), ("object.value", .arr [.str "x", .str "y"])]
        (.obj [("a", .arr [.str "x"])]) = .ok ("Failed", .arr [.str "x"]) ∧
    evaluateObjectKey [("object_key", .str "b"), ("object.value", .arr [.str "x"])]
        (.obj [("b", .int 5)]) = .ok ("CouldNotValidate", .null) := by
  constructor
  · exact (((c7_list_subset
      [("object_key", .str "a"), ("object.value", .arr [.str "x", .str "y"])]
      (.obj [("a", .arr [.str "x"])]) "a" (.arr [.str "x"]) [.str "x", .str "y"]
      rfl (by decide) (by decide) (by decide) rfl).1 (by decide)).2).mpr
      ⟨.str "y", by decide, by decide⟩
  · exact (c7_list_subset
      [("object_key", .str "b"), ("object.value", .arr [.str "x"])]
      (.obj [("b", .int 5)]) "b" (.int 5) [.str "x"]
      rfl (by decide) (by decide) (by decide) rfl).2 "TypeError" (by decide)

/-! ## C8 — pipe-delimited alternatives: case- and order-insensitive -/

theorem contains_eq_of_perm (l1 l2 : List String) (x : String) (hp : l1.Perm l2) :
    l1.contains x = l2.contains x := by
  simp only [List.contains, List.elem_eq_mem]
  exact decide_eq_decide.mpr hp.mem_iff

/-- For a string `expected_value` containing `|`, the comparison is
membership of the lowercased stringified resolved value in the trimmed,
lowercased alternative set. -/
theorem compareValues_pipe (e : String) (v : Json) (hpipe : pyContainsChar '|' e = true) :
    compareValues (.str e) v = .ok ((allowedValues e).contains (pyLower (pyStr v))) := by
  simp [compareValues, hpipe]

/-- C8: for direct-mode rules whose `expected_value` is a string
containing `|`, the verdict is unchanged under any permutation of the
(trimmed, lowercased) pipe-delimited alternative sets and under any
change of letter case of the resolved values (equal lowercased
stringifications): the two evaluations produce the same status. -/
theorem c8_pipe_alternatives :
    ∀ (rec1 rec2 : PyDict) (tree1 tree2 : Json) (s1 s2 e1 e2 : String) (v1 v2 : Json),
      pyGet rec1 "object_key" = some (.str s1) → s1 ≠ "" → s1 ≠ "CouldNotValidated" →
      pyGet rec2 "object_key" = some (.str s2) → s2 ≠ "" → s2 ≠ "CouldNotValidated" →
      pyGet rec1 "object.value" = some (.str e1) →
      pyGet rec2 "object.value" = some (.str e2) →
      pyContainsChar '|' e1 = true → pyContainsChar '|' e2 = true →
      walkTokens (tokenize s1) tree1 = .ok v1 →
      walkTokens (tokenize s2) tree2 = .ok v2 →
      (allowedValues e1).Perm (allowedValues e2) →
      pyLower (pyStr v1) = pyLower (pyStr v2) →
      (evaluateObjectKey rec1 tree1).map Prod.fst =
        (evaluateObjectKey rec2 tree2).map Prod.fst := by
  intro rec1 rec2 tree1 tree2 s1 s2 e1 e2 v1 v2 h1 hs1 hsent1 h2 hs2 hsent2
    hexp1 hexp2 hpipe1 hpipe2 hwalk1 hwalk2 hperm hlow
  have hE1 : evaluateObjectKey rec1 tree1 =
      .ok ((if (allowedValues e1).contains (pyLower (pyStr v1)) then "Passed" else "Failed"),
        v1) := by
    rw [evaluateObjectKey_str rec1 tree1 s1 h1 hs1 hsent1, hwalk1, hexp1]
    simp only [Option.getD_some, compareValues_pipe e1 v1 hpipe1]
  have hE2 : evaluateObjectKey rec2 tree2 =
      .ok ((if (allowedValues e2).contains (pyLower (pyStr v2)) then "Passed" else "Failed"),
        v2) := by
    rw [evaluateObjectKey_str rec2 tree2 s2 h2 hs2 hsent2, hwalk2, hexp2]
    simp only [Option.getD_some, compareValues_pipe e2 v2 hpipe2]
  have hm : (allowedValues e1).contains (pyLower (pyStr v1)) =
      (allowedValues e2).contains (pyLower (pyStr v2)) := by
    rw [hlow]
    exact contains_eq_of_perm _ _ _ hperm
  rw [hE1, hE2, hm]
  rfl

/-- C8 witness: permuted, case-changed alternatives and a case-changed
resolved value give the same verdict. -/
theorem c8_pipe_alternatives_witness :
    (evaluateObjectKey [("object_key", .str "sku.tier"), ("object.value", .str "Paid | Standard")]
        (.obj [("sku", .obj [("tier", .str "STANDARD")])])).map Prod.fst =
      (evaluateObjectKey [("object_key", .str "p"), ("object.value", .str "standard|paid")]
        (.obj [("p", .str "Standard")])).map Prod.fst := by
  exact c8_pipe_alternatives
    [("object_key", .str "sku.tier"), ("object.value", .str "Paid | Standard")]
    [("object_key", .str "p"), ("object.value", .str "standard|paid")]
    (.obj [("sku", .obj [("tier", .str "STANDARD")])]) (.obj [("p", .str "Standard")])
    "sku.tier" "p" "Paid | Standard" "standard|paid" (.str "STANDARD") (.str "Standard")
    rfl (by decide) (by decide) rfl (by decide) (by decide) rfl rfl (by decide) (by decide)
    (by decide) (by decide) (by decide) (by decide)

/-! ## C9 — negative sequence indices -/

/-- C9: for a bracket token carrying a negative integer `n` against a
sequence of length `L`: the guard `idx < len(value)` passes, so Python
indexing applies — if `-L ≤ n < 0` traversal continues from the element
at position `L + n` (no degradation to an empty mapping); if `n < -L`
the indexing raises `IndexError`, and a traversal that raises makes the
evaluator return `Undetermined` (`CouldNotValidate`) with `actual_value`
`None`. -/
theorem c9_negative_index :
    ∀ (xs : List Json) (n : Int) (t : String),
      pyStartsWith "[" t = true → pyEndsWith "]" t = true →
      pyInt (String.mk (t.data.drop 1).dropLast) = .ok n →
      ((-(xs.length : Int) ≤ n → n < 0 → ∀ ks : List String,
        walkTokens (t :: ks) (.arr xs) =
          walkTokens ks (xs.getD ((xs.length : Int) + n).toNat .null)) ∧
        (n < -(xs.length : Int) → ∀ ks : List String,
          walkTokens (t :: ks) (.arr xs) = .error "IndexError") ∧
        (∀ (rec : PyDict) (tree : Json) (s e : String),
          pyGet rec "object_key" = some (.str s) → s ≠ "" → s ≠ "CouldNotValidated" →
          walkTokens (tokenize s) tree = .error e →
          evaluateObjectKey rec tree = .ok ("CouldNotValidate", .null))) := by
  intro xs n t hs he hp
  have ht : t ≠ "" := by
    intro h0
    rw [h0] at hs
    exact absurd hs (by decide)
  have hlen0 : (0 : Int) ≤ (xs.length : Int) := by exact_mod_cast Nat.zero_le _
  refine ⟨?_, ?_, ?_⟩
  · intro hge hlt ks
    have h1 : n < (xs.length : Int) := lt_of_lt_of_le hlt hlen0
    have h2 : ¬(0 ≤ n) := not_le.mpr hlt
    have h3 : (0 : Int) ≤ (xs.length : Int) + n := by omega
    simp only [walkTokens, if_neg ht, hs, he, Bool.and_self, if_true, hp,
      if_pos h1, pyListGet, if_neg h2, if_pos h3]
  · intro hlt ks
    have hn0 : n < 0 := by omega
    have h1 : n < (xs.length : Int) := by omega
    have h2 : ¬(0 ≤ n) := not_le.mpr hn0
    have h3 : ¬((0 : Int) ≤ (xs.length : Int) + n) := by omega
    simp only [walkTokens, if_neg ht, hs, he, Bool.and_self, if_true, hp,
      if_pos h1, pyListGet, if_neg h2, if_neg h3]
  · intro rec tree s e h hs2 hsent hwalk
    rw [evaluateObjectKey_str rec tree s h hs2 hsent, hwalk]

/-- C9 witness: `[-1]` on a two-element sequence resolves to the last
element; `[-3]` raises and the evaluator returns `CouldNotValidate`
with no actual value. -/
theorem c9_negative_index_witness :
    walkTokens ["[-1]"] (.arr [.int 7, .int 8]) = .ok (.int 8) ∧
    walkTokens ["[-3]"] (.arr [.int 7, .int 8]) = .error "IndexError" ∧
    evaluateObjectKey [("object_key", .str "k[-3]"), ("object.value", .str "1")]
        (.obj [("k", .arr [.int 7, .int 8])]) = .ok ("CouldNotValidate", .null) := by
  refine ⟨?_, ?_, ?_⟩
  · have h := (c9_negative_index [.int 7, .int 8] (-1) "[-1]"
      (by decide) (by decide) (by decide)).1 (by decide) (by decide) []
    simpa using h
  · exact (c9_negative_index [.int 7, .int 8] (-3) "[-3]"
      (by decide) (by decide) (by decide)).2.1 (by decide) []
  · exact (c9_negative_index [.int 7, .int 8] (-3) "[-3]"
      (by decide) (by decide) (by decide)).2.2
      [("object_key", .str "k[-3]"), ("object.value", .str "1")]
      (.obj [("k", .arr [.int 7, .int 8])]) "k[-3]" "IndexError"
      rfl (by decide) (by decide) (by decide)

/-! ## C10 — status trichotomy and count partition -/

theorem evaluateKqlQuery_status (loader : String → Option String)
    (runner : String → Except String (List Json)) (qf : String) (info : PyDict) :
    evaluateKqlQuery loader runner qf info = "Passed" ∨
    evaluateKqlQuery loader runner qf info = "Failed" ∨
    evaluateKqlQuery loader runner qf info = "CouldNotValidate" := by
  cases hL : loader qf with
  | none =>
    exact Or.inr (Or.inr (by simp [evaluateKqlQuery, hL]))
  | some q =>
    by_cases hq : q = ""
    · exact Or.inr (Or.inr (by simp [evaluateKqlQuery, hL, hq]))
    · cases hR : runner q with
      | error e =>
        exact Or.inr (Or.inr (by simp [evaluateKqlQuery, hL, hq, hR]))
      | ok records =>
        cases hF : filterToCluster (pyGet info "name") records with
        | error e =>
          exact Or.inr (Or.inr (by simp [evaluateKqlQuery, hL, hq, hR, hF]))
        | ok fs =>
          by_cases hl : fs.length > 0
          · exact Or.inr (Or.inl (by simp [evaluateKqlQuery, hL, hq, hR, hF, hl]))
          · exact Or.inl (by simp [evaluateKqlQuery, hL, hq, hR, hF, hl])

theorem evaluateObjectKey_status (rec : PyDict) (tree : Json) (st : String) (v : Json)
    (h : evaluateObjectKey rec tree = .ok (st, v)) :
    st = "Passed" ∨ st = "Failed" ∨ st = "CouldNotValidate" := by
  unfold evaluateObjectKey at h
  split at h
  · simp only [Except.ok.injEq, Prod.mk.injEq] at h
    exact Or.inr (Or.inr h.1.symm)
  · split at h
    · split at h
      · simp only [Except.ok.injEq, Prod.mk.injEq] at h
        exact Or.inr (Or.inr h.1.symm)
      · split at h
        · simp only [Except.ok.injEq, Prod.mk.injEq] at h
          exact Or.inr (Or.inr h.1.symm)
        · rename_i passed _
          simp only [Except.ok.injEq, Prod.mk.injEq] at h
          cases passed
          · exact Or.inr (Or.inl h.1.symm)
          · exact Or.inl h.1.symm
    · exact absurd h (by simp)

theorem evaluateRecommendation_status (ctx : EngineCtx) (cd : Json) (ci : PyDict)
    (rec : PyDict) :
    (evaluateRecommendation ctx cd ci rec).status = "Passed" ∨
    (evaluateRecommendation ctx cd ci rec).status = "Failed" ∨
    (evaluateRecommendation ctx cd ci rec).status = "CouldNotValidate" := by
  unfold evaluateRecommendation
  by_cases hq : ((pyGet rec "query_file").isSome = true)
  · cases hv : (pyGet rec "query_file").getD .null with
    | str qf =>
      simpa [hq, hv] using evaluateKqlQuery_status ctx.loader ctx.runner qf ci
    | null => exact Or.inr (Or.inr (by simp [hq, hv]))
    | bool b => exact Or.inr (Or.inr (by simp [hq, hv]))
    | int n => exact Or.inr (Or.inr (by simp [hq, hv]))
    | arr xs => exact Or.inr (Or.inr (by simp [hq, hv]))
    | obj kvs => exact Or.inr (Or.inr (by simp [hq, hv]))
  · by_cases ho : ((pyGet rec "object_key").isSome = true)
    · cases hE : evaluateObjectKey rec cd with
      | error e => exact Or.inr (Or.inr (by simp [hq, ho, hE]))
      | ok sv =>
        have := evaluateObjectKey_status rec cd sv.1 sv.2 (by rw [hE])
        simpa [hq, ho, hE] using this
    · exact Or.inr (Or.inr (by simp [hq, ho]))

/-- Tri-valued statuses partition a result list's length into the three
counts. -/
theorem length_eq_counts (l : List RuleResult)
    (h : ∀ r ∈ l, r.status = "Passed" ∨ r.status = "Failed" ∨
      r.status = "CouldNotValidate") :
    l.length = l.countP (fun r => r.status == "Passed") +
      l.countP (fun r => r.status == "Failed") +
      l.countP (fun r => r.status == "CouldNotValidate") := by
  induction l with
  | nil => rfl
  | cons r l ih =>
    have hr := h r (List.mem_cons_self r l)
    have hl := fun x hx => h x (List.mem_cons_of_mem r hx)
    simp only [List.length_cons, List.countP_cons, ih hl]
    rcases hr with h1 | h1 | h1 <;> simp [h1] <;> omega

/-- C10: every result the per-rule evaluator produces has status
`Passed`, `Failed` or `CouldNotValidate`; consequently the summary's
`total_checks` equals `passed + failed + not_validated`, and within each
pillar entry `total = passed + failed + not_validated`. -/
theorem c10_status_partition :
    (∀ (ctx : EngineCtx) (cd : Json) (ci : PyDict) (rec : PyDict),
      (evaluateRecommendation ctx cd ci rec).status = "Passed" ∨
      (evaluateRecommendation ctx cd ci rec).status = "Failed" ∨
      (evaluateRecommendation ctx cd ci rec).status = "CouldNotValidate") ∧
    (∀ results : List RuleResult,
      (∀ r ∈ results, r.status = "Passed" ∨ r.status = "Failed" ∨
        r.status = "CouldNotValidate") →
      ((calculateSummary results).total_checks =
        (calculateSummary results).passed + (calculateSummary results).failed +
          (calculateSummary results).not_validated ∧
        (∀ (p : String) (ps : PillarScore),
          (p, ps) ∈ (calculateSummary results).pillar_scores →
          ps.total = ps.passed + ps.failed + ps.not_validated))) := by
  constructor
  · exact evaluateRecommendation_status
  · intro results h
    constructor
    · exact length_eq_counts results h
    · intro p ps hmem
      have hmem2 : ∃ name ∈ PILLAR_NAMES, (name, pillarEntry results name) = (p, ps) := by
        simpa [calculateSummary, List.mem_map] using hmem
      rcases hmem2 with ⟨name, _, heq⟩
      have hps : ps = pillarEntry results name := by
        have := congrArg Prod.snd heq
        simpa using this.symm
      subst hps
      have hsub : ∀ r ∈ results.filter (fun r => r.category == Json.str name),
          r.status = "Passed" ∨ r.status = "Failed" ∨ r.status = "CouldNotValidate" :=
        fun r hr => h r (List.mem_filter.mp hr).1
      simpa [pillarEntry] using length_eq_counts _ hsub

/-- C10 witness at a concrete evaluation and a concrete result list. -/
theorem c10_status_partition_witness :
    ((evaluateRecommendation ⟨fun _ => none, fun _ => .ok []⟩ (.obj []) []
        [("recommendation_name", .str "r")]).status = "Passed" ∨
      (evaluateRecommendation ⟨fun _ => none, fun _ => .ok []⟩ (.obj []) []
        [("recommendation_name", .str "r")]).status = "Failed" ∨
      (evaluateRecommendation ⟨fun _ => none, fun _ => .ok []⟩ (.obj []) []
        [("recommendation_name", .str "r")]).status = "CouldNotValidate") ∧
    (calculateSummary [mkResult "Reliability" "Passed",
        mkResult "Security" "CouldNotValidate"]).total_checks =
      (calculateSummary [mkResult "Reliability" "Passed",
        mkResult "Security" "CouldNotValidate"]).passed +
        (calculateSummary [mkResult "Reliability" "Passed",
          mkResult "Security" "CouldNotValidate"]).failed +
        (calculateSummary [mkResult "Reliability" "Passed",
          mkResult "Security" "CouldNotValidate"]).not_validated := by
  constructor
  · exact c10_status_partition.1 ⟨fun _ => none, fun _ => .ok []⟩ (.obj []) []
      [("recommendation_name", .str "r")]
  · exact (c10_status_partition.2 [mkResult "Reliability" "Passed",
      mkResult "Security" "CouldNotValidate"] (by decide)).1

end AksBpa
